import Mathlib

/-!
# Verification of the dynamic-CLIP printer control software

Shallow embedding of the core of the repository (motion-controller protocol
driver `SMC100C.cpp` and print-process synchronization engine
`individualCommands.cpp`) together with proofs and refutations of the
specification's claims.

Conventions used throughout:

* C++ `float`/`double` values are modelled as `ℚ` (exact rationals); the
  claims settled here concern control flow, ordering and counting, not
  floating-point rounding.
* Wall-clock time is modelled by explicit millisecond counters; sleeps
  contribute their nominal durations.
* Serial I/O is modelled by oracles: a query either yields a value or (for
  the status-poll loop) an exception, supplied as a list or stream of
  responses.
* Loops whose exit depends on the oracle are written with explicit fuel;
  the theorems show concrete fuel bounds suffice.
-/

namespace DynamicClip

/-! ## LayerSettings and the ordered settings loader
    (`individualCommands.h` 36-51, `individualCommands.cpp` readSettingsOrdered) -/

/-- `struct LayerSettings { int intensity; int exposureTime; int darkTime; }`.
`operator==` is fieldwise equality and `operator<` is lexicographic, so the
`std::map` keyed by `LayerSettings` distinguishes exactly the triples that
`DecidableEq` distinguishes. -/
structure LayerSettings where
  intensity : Int
  exposureTime : Int
  darkTime : Int
deriving DecidableEq, Repr

/-- `settingsCount[s]++` on an association list: increment the first entry
whose key equals `s`; if no entry exists, value-initialize to `0` and
increment, i.e. append `(s, 1)`.  Also used for the in-place `setting.second++`
loop over the ordered vector (where the key is always present). -/
def bump : List (LayerSettings × Nat) → LayerSettings → List (LayerSettings × Nat)
  | [], s => [(s, 1)]
  | p :: rest, s => if p.1 = s then (p.1, p.2 + 1) :: rest else p :: bump rest s

/-- Membership test `settingsCount.find(currentSetting) != settingsCount.end()`.
The `std::map`'s internal ordering is never observed (only membership is), so
the map is embedded as an association list. -/
def mapHasKey (m : List (LayerSettings × Nat)) (s : LayerSettings) : Bool :=
  (m.find? fun p => decide (p.1 = s)).isSome

/-- One iteration of the `readSettingsOrdered` parsing loop, acting on the pair
(`settingsCount` map, `orderedSettings` vector):
if the setting is new, `orderedSettings.emplace_back(currentSetting, 1)`;
otherwise `settingsCount[s]++` and the matching vector entry is incremented;
in both branches the trailing `settingsCount[currentSetting]++` runs. -/
def settingsStep (st : List (LayerSettings × Nat) × List (LayerSettings × Nat))
    (s : LayerSettings) : List (LayerSettings × Nat) × List (LayerSettings × Nat) :=
  if mapHasKey st.1 s = false then
    (bump st.1 s, st.2 ++ [(s, 1)])
  else
    (bump (bump st.1 s) s, bump st.2 s)

/-- The loop of `readSettingsOrdered` over the already-parsed rows, returning
the `orderedSettings` vector. -/
def readSettingsOrderedCore (rows : List LayerSettings) : List (LayerSettings × Nat) :=
  (rows.foldl settingsStep ([], [])).2

/-! ### C++ `istream` row parsing

`iss >> layer >> delim >> intensity >> delim >> exposureTime >> delim >> darkTime`
with `int` targets and a `char` delimiter.  Per C++11 semantics:
a failed *numeric* extraction writes `0` to its target and sets `failbit`;
every later extraction on the failed stream leaves its target *unchanged*,
i.e. holding the indeterminate value of the uninitialized local.  The
indeterminate values of `intensity`, `exposureTime`, `darkTime` are supplied
as the parameters `j1 j2 j3`. -/

/-- Formatted `int` extraction: skip whitespace, optional sign, at least one
digit; returns the value and the unconsumed remainder, or `none` on failure. -/
def extractInt (cs : List Char) : Option (Int × List Char) :=
  let cs := cs.dropWhile Char.isWhitespace
  match cs with
  | '-' :: rest =>
    let ds := rest.takeWhile Char.isDigit
    if ds.isEmpty then none
    else some (-(ds.foldl (fun n c => n * 10 + (c.toNat - 48)) 0 : Nat), rest.dropWhile Char.isDigit)
  | '+' :: rest =>
    let ds := rest.takeWhile Char.isDigit
    if ds.isEmpty then none
    else some ((ds.foldl (fun n c => n * 10 + (c.toNat - 48)) 0 : Nat), rest.dropWhile Char.isDigit)
  | _ =>
    let ds := cs.takeWhile Char.isDigit
    if ds.isEmpty then none
    else some ((ds.foldl (fun n c => n * 10 + (c.toNat - 48)) 0 : Nat), cs.dropWhile Char.isDigit)

/-- Formatted `char` extraction: skip whitespace, take one character;
fails only at end of input. -/
def extractChar (cs : List Char) : Option (Char × List Char) :=
  match cs.dropWhile Char.isWhitespace with
  | [] => none
  | c :: rest => some (c, rest)

/-- Parse one data row exactly as the extraction chain in
`readSettingsOrdered` does.  `j1 j2 j3` are the indeterminate initial values
of `intensity`, `exposureTime`, `darkTime`; the first extraction that fails
writes `0`, everything after it is left at its indeterminate value, and no
error is reported in any case. -/
def parseRow (j1 j2 j3 : Int) (line : String) : LayerSettings :=
  match extractInt line.toList with
  | none => ⟨j1, j2, j3⟩
  | some (_, r1) =>
    match extractChar r1 with
    | none => ⟨j1, j2, j3⟩
    | some (_, r2) =>
      match extractInt r2 with
      | none => ⟨0, j2, j3⟩
      | some (i, r3) =>
        match extractChar r3 with
        | none => ⟨i, j2, j3⟩
        | some (_, r4) =>
          match extractInt r4 with
          | none => ⟨i, 0, j3⟩
          | some (e, r5) =>
            match extractChar r5 with
            | none => ⟨i, e, j3⟩
            | some (_, r6) =>
              match extractInt r6 with
              | none => ⟨i, e, 0⟩
              | some (d, _) => ⟨i, e, d⟩

/-- `readSettingsOrdered`: skip the header line (the first `getline`), parse
every remaining line, and fold the parsed rows through the dedup/count loop.
A file that cannot be opened behaves like an empty file: the very first
`getline` fails, so `lines = []`.  The return type is the plain vector —
the function has no error channel. -/
def readSettingsOrdered (lines : List String) (j1 j2 j3 : Int) :
    List (LayerSettings × Nat) :=
  readSettingsOrderedCore ((lines.drop 1).map (parseRow j1 j2 j3))

/-- The specification's description of the table order, written from the
spec's words ("insertion order = order of first appearance in the source"),
used to compare against the table computed by the code. -/
def specFirstAppearance (rows : List LayerSettings) : List LayerSettings :=
  rows.foldl (fun acc s => if s ∈ acc then acc else acc ++ [s]) []

/-- Total repeat count stored in a table (number of absorbed data rows). -/
def totalCount (v : List (LayerSettings × Nat)) : Nat :=
  (v.map Prod.snd).sum

/-- Sum of the counts of the entries carrying key `s`. -/
def keyCount (v : List (LayerSettings × Nat)) (s : LayerSettings) : Nat :=
  ((v.filter fun p => decide (p.1 = s)).map Prod.snd).sum

/-! ## Status decode (`SMC100C.cpp` StatusLibrary / GetCurrentStatus) -/

/-- `enum class StatusType` of `SMC100C.h`. -/
inductive StatusType where
  | unknown | error | config | noReference | homing | moving | ready | disabled | jogging
deriving DecidableEq, Repr

/-- The static `StatusLibrary[]` table (SMC100C user-manual controller states). -/
def statusLibrary : List (String × StatusType) :=
  [("0A", .noReference), ("0B", .noReference), ("0C", .noReference),
   ("0D", .noReference), ("0E", .noReference), ("0F", .noReference),
   ("10", .noReference), ("11", .noReference),
   ("14", .config),
   ("1E", .homing), ("1F", .homing),
   ("28", .moving),
   ("32", .ready), ("33", .ready), ("34", .ready), ("35", .ready),
   ("3C", .disabled), ("3D", .disabled), ("3E", .disabled),
   ("46", .jogging), ("47", .jogging)]

/-- The strings returned by the `switch` in `GetCurrentStatus`. -/
def statusTypeName : StatusType → String
  | .config => "Configuration"
  | .noReference => "No Reference"
  | .homing => "Homing"
  | .moving => "Moving"
  | .ready => "Ready"
  | .disabled => "Disabled"
  | .jogging => "Jogging"
  | .error => "Error"
  | .unknown => "Unknown"

/-- `response.substr(7, 2)`: the 2-character token at offset 7 (shorter if the
line ends before offset 9). -/
def statusToken (response : String) : String :=
  (response.drop 7).take 2

/-- The decode performed by `GetCurrentStatus` on a raw response line.
`std::string::substr(7, 2)` throws `std::out_of_range` when the line is
shorter than 7 characters; the thrown case is modelled as `none`.  Otherwise
the token is looked up in `statusLibrary`; a hit returns the mapped name and
a miss returns `"Unknown Status Code: " ++ token`. -/
def getCurrentStatusDecode (response : String) : Option String :=
  if response.length < 7 then none
  else
    match statusLibrary.find? (fun e => decide (e.1 = statusToken response)) with
    | some e => some (statusTypeName e.2)
    | none => some ("Unknown Status Code: " ++ statusToken response)

/-! ## Command encoding (`SMC100C.cpp` CommandLibrary / SetCommand / SendCurrentCommand) -/

/-- `enum class CommandParameterType`. -/
inductive CommandParameterType where
  | noParam | int | float
deriving DecidableEq, Repr

/-- `enum class CommandGetSetType`. -/
inductive CommandGetSetType where
  | noIntent | get | set | getSet | getAlways
deriving DecidableEq, Repr

/-- One row of `CommandLibrary[]`: the 2-character wire code, the parameter
kind, and the get/set capability.  The `CommandType` enum tag is the row's
index in `commandLibrary` (the array is indexed by
`static_cast<int>(Type)`). -/
structure CommandStruct where
  code : String
  sendType : CommandParameterType
  getSetType : CommandGetSetType
deriving DecidableEq, Repr

/-- The full static `CommandLibrary[]` table, in array order. -/
def commandLibrary : List CommandStruct :=
  [⟨"  ", .noParam, .noIntent⟩,      -- None
   ⟨"AC", .float, .getSet⟩,          -- Acceleration
   ⟨"BA", .float, .getSet⟩,          -- BacklashComp
   ⟨"BH", .float, .getSet⟩,          -- HysterisisComp
   ⟨"DV", .float, .getSet⟩,          -- DriverVoltage
   ⟨"FD", .float, .getSet⟩,          -- KdLowPassFilterCutOff
   ⟨"FE", .float, .getSet⟩,          -- FollowingErrorLim
   ⟨"FF", .float, .getSet⟩,          -- FrictionComp
   ⟨"HT", .int, .getSet⟩,            -- HomeSearchType
   ⟨"ID", .float, .getSet⟩,          -- StageIdentifier
   ⟨"JD", .noParam, .noIntent⟩,      -- LeaveJoggingState
   ⟨"JM", .int, .getSet⟩,            -- KeypadEnable
   ⟨"JR", .float, .getSet⟩,          -- JerkTime
   ⟨"KD", .float, .getSet⟩,          -- DerivativeGain
   ⟨"KI", .float, .getSet⟩,          -- IntegralGain
   ⟨"KP", .float, .getSet⟩,          -- ProportionalGain
   ⟨"KV", .float, .getSet⟩,          -- VelocityFeedForward
   ⟨"MM", .int, .noIntent⟩,          -- Enable
   ⟨"OH", .float, .getSet⟩,          -- HomeSearchVelocity
   ⟨"OR", .noParam, .noIntent⟩,      -- HomeSearch
   ⟨"OT", .float, .getSet⟩,          -- HomeSearchTimeout
   ⟨"PA", .float, .getSet⟩,          -- MoveAbs
   ⟨"PR", .float, .getSet⟩,          -- MoveRel
   ⟨"PT", .float, .getAlways⟩,       -- MoveEstimate
   ⟨"PW", .int, .getSet⟩,            -- Configure
   ⟨"RA", .noParam, .getAlways⟩,     -- Analog
   ⟨"RB", .noParam, .getAlways⟩,     -- TTLInputVal
   ⟨"RS", .noParam, .noIntent⟩,      -- Reset
   ⟨"SA", .int, .getSet⟩,            -- RS485Adress
   ⟨"SB", .int, .getSet⟩,            -- TTLOutputVal
   ⟨"SC", .int, .getSet⟩,            -- ControlLoopState
   ⟨"SL", .float, .getSet⟩,          -- NegativeSoftwareLim
   ⟨"SR", .float, .getSet⟩,          -- PositiveSoftwareLim
   ⟨"ST", .noParam, .noIntent⟩,      -- StopMotion
   ⟨"SU", .float, .getSet⟩,          -- EncoderIncrementVal
   ⟨"TB", .noParam, .getAlways⟩,     -- CommandErrorString
   ⟨"TE", .noParam, .getAlways⟩,     -- LastCommandErr
   ⟨"TH", .noParam, .getAlways⟩,     -- PositionAsSet
   ⟨"TP", .noParam, .getAlways⟩,     -- PositionReal
   ⟨"TS", .noParam, .getAlways⟩,     -- ErrorStatus
   ⟨"VA", .float, .getSet⟩,          -- Velocity
   ⟨"Vb", .float, .getSet⟩,          -- BaseVelocity
   ⟨"VE", .noParam, .getAlways⟩,     -- ControllerRevisionInfo
   ⟨"ZT", .noParam, .getAlways⟩,     -- AllConfigParam
   ⟨"ZX", .int, .getSet⟩]            -- ESPStageConfig

/-- `SendCurrentCommand` for the command set by `SetCommand(type, param, intent)`.
`fmtInt`/`fmtFloat` abstract `std::to_string` on `static_cast<int>(param)` and
on `param` respectively.  The result is the success flag returned to the
caller and the full byte sequence written to the serial line (controller
address `"1"`, then the wire code, then `"?"` for a `Get` or the formatted
parameter otherwise — the empty string when the command's parameter kind is
`noParam` — then `"\r\n"`).  The only `false` return is a short write of the
address, an I/O failure outside the encoding logic, so the model returns
`true`. -/
def sendCurrentCommand (fmtInt fmtFloat : ℚ → String) (cmd : CommandStruct)
    (param : ℚ) (intent : CommandGetSetType) : Bool × String :=
  let paramStr :=
    if intent = CommandGetSetType.get then "?"
    else
      match cmd.sendType with
      | CommandParameterType.int => fmtInt param
      | CommandParameterType.float => fmtFloat param
      | CommandParameterType.noParam => ""
  (true, "1" ++ cmd.code ++ paramStr ++ "\r\n")

/-! ## moveStage (`individualCommands.cpp` 451-487) -/

/-- Outcome of one `GetCurrentStatus()` poll inside `moveAndCheckReady`:
either a status string or a thrown exception. -/
inductive QueryRes where
  | ok (s : String)
  | exn
deriving DecidableEq, Repr

/-- The `moveAndCheckReady` lambda, driven by the list of poll outcomes.
`n` counts the `RelativeMove` commands issued so far for this sub-move
(one is issued on entry; an exception caught by the retry loop issues
another).  Returns the total issue count and the unconsumed poll outcomes,
or `none` when the outcome list is exhausted with the loop still running
(the loop itself has no timeout). -/
def moveAndCheckReadyAux : List QueryRes → Nat → Option (Nat × List QueryRes)
  | [], _ => none
  | QueryRes.ok s :: rest, n =>
    if s = "Ready" then some (n, rest) else moveAndCheckReadyAux rest n
  | QueryRes.exn :: rest, n => moveAndCheckReadyAux rest (n + 1)

/-- `moveAndCheckReady(moveStep)`: issue the move, then poll until `"Ready"`. -/
def moveAndCheckReady (qs : List QueryRes) : Option (Nat × List QueryRes) :=
  moveAndCheckReadyAux qs 1

/-- `moveStage(controller, stepSize, isClip, dlpPumpingAction)`.
Returns the ordered list of sub-moves — each as (relative distance, number of
times its `RelativeMove` was issued) — and the unconsumed poll outcomes.
Not clip-mode: pump up by `-dlpPumpingAction`, main step, pump down by
`+dlpPumpingAction`; clip-mode: the main step only. -/
def moveStage (isClip : Bool) (stepSize dlpPumpingAction : ℚ)
    (qs : List QueryRes) : Option (List (ℚ × Nat) × List QueryRes) :=
  if isClip = false then
    (moveAndCheckReady qs).bind fun a =>
      (moveAndCheckReady a.2).bind fun b =>
        (moveAndCheckReady b.2).bind fun c =>
          some ([(-dlpPumpingAction, a.1), (stepSize, b.1), (dlpPumpingAction, c.1)], c.2)
  else
    (moveAndCheckReady qs).bind fun a => some ([(stepSize, a.1)], a.2)

/-! ## waitForPosition (`individualCommands.cpp` 532-565, checkTimeout 504-511)

Each loop iteration: sleep 50 ms, `GetPosition()`, sleep 50 ms, strip the
terminators and — when the reply is long enough — parse `substr(3, 6)` and
compare against the target within the tolerance; then re-issue
`AbsoluteMove(targetPosition)`; then `checkTimeout`, which compares the
elapsed time truncated to whole seconds against the timeout.  The reported
position is abstracted as an oracle `resp : Nat → Option ℚ` (`none` covers a
short/unparsable reply and a thrown-and-caught exception); the duration of
iteration `i` is `dur i` milliseconds (the two sleeps alone contribute
100 ms). -/

/-- The per-iteration position test: a reply long enough to slice and
parse (`some p`) matches when `abs(currentPosition - targetPosition) <
tolerance`; a short, unparsable or exception-raising reply (`none`) does
not match and the loop continues. -/
def posMatched (r : Option ℚ) (target tol : ℚ) : Bool :=
  match r with
  | some p => decide (|p - target| < tol)
  | none => false

/-- The `waitForPosition` loop.  `i` is the iteration index, `el` the elapsed
milliseconds; the result is `(iterations, elapsedMs, matched)`.  One
`GetPosition` query and one `AbsoluteMove(target)` re-issue happen on every
iteration, so `iterations` counts both.  `none` means the fuel ran out before
the loop exited (the theorems show fuel `10 * timeoutSec + 1` always
suffices when every iteration lasts at least 100 ms). -/
def waitForPosition (resp : Nat → Option ℚ) (dur : Nat → Nat) (target tol : ℚ)
    (timeoutSec : Nat) : Nat → Nat → Nat → Option (Nat × Nat × Bool)
  | 0, _, _ => none
  | fuel + 1, i, el =>
    let el' := el + dur i
    if posMatched (resp i) target tol then some (i + 1, el', true)
    else if timeoutSec ≤ el' / 1000 then some (i + 1, el', false)
    else waitForPosition resp dur target tol timeoutSec fuel (i + 1) el'

/-! ## The RunFull frame loop (`individualCommands.cpp` RunFull)

One iteration of `while (window.isOpen())` per display frame.  The
quantities the loop reads from the outside world on a given tick are
bundled as `RFInput`:
`abort` is `getAbortFlag()`, `stageReady` is whether
`stageThread.wait_for(0ms) == ready`, and `darkElapsed` is whether
`now - darkTimeStart > darkDuration`.  Serial and display effects are
recorded as an event list. -/

/-- Observable actions of one loop iteration (and of the shutdown tail). -/
inductive RFEvent where
  | presentImage        -- draw the current texture and display
  | presentBlank        -- clear and display (dark frame / settle pulse)
  | logAbort            -- logCallback("Run Full aborted.")
  | launchMove          -- std::async(moveStage, ...)
  | moveDone            -- stageThread.get() after completion observed
  | swapBuffers         -- currentTextureIndex = 1 - currentTextureIndex, index++
  | queryPosition       -- best-effort GetPosition at the layer boundary
  | setCurrentZero      -- SetCurrent(0, 0) on the all-images-shown exit
  | layerDone           -- dynamic run only: "Printed layer ..." / layercounter++
  | applyGroup (g : LayerSettings)  -- dynamic run only: group settings applied
  | finalPositionQuery  -- shutdown: GetPosition logged as final position
  | homeCmd             -- shutdown: controller.Home()
  | closeConn           -- shutdown: controller.SMC100CClose()
  | windowClose         -- shutdown: window.close()
deriving DecidableEq, Repr

/-- Run parameters fixed for the whole job. -/
structure RFParams where
  maxImageDisplayCount : Nat
  initialExposureCounter : Nat
  initialLayers : Nat
  numImages : Nat
deriving DecidableEq, Repr

/-- The mutable locals of the `RunFull` loop (times are carried by the input
oracle instead of absolute clock values). -/
structure RFState where
  displayImage : Bool
  imageDisplayCount : Nat
  currentLayer : Nat
  inInitialPhase : Bool
  inLightPhase : Bool
  filenameLogged : Bool
  currentImageIndex : Nat
  currentTextureIndex : Bool
  nextImageLoaded : Bool
  isNextImageLoading : Bool
  allImagesShown : Bool
  isStageThreadRunning : Bool
deriving DecidableEq, Repr

/-- Values read from the environment at the top of one tick. -/
structure RFInput where
  abort : Bool
  stageReady : Bool
  darkElapsed : Bool
deriving DecidableEq, Repr

/-- Local state at loop entry. -/
def rfInit : RFState :=
  { displayImage := true, imageDisplayCount := 0, currentLayer := 0,
    inInitialPhase := true, inLightPhase := true, filenameLogged := false,
    currentImageIndex := 0, currentTextureIndex := false,
    nextImageLoaded := false, isNextImageLoading := false,
    allImagesShown := false, isStageThreadRunning := false }

/-- The light-phase branch body (`if (displayImage)`) after the abort check:
present the image, log the filename once per image, bump the exposure-frame
counter against the initial or nominal threshold, and on reaching it start
the dark phase (layer++, best-effort position query, dark timer restart). -/
def rfLightStep (p : RFParams) (s : RFState) : RFState × List RFEvent :=
  let s :=
    if s.filenameLogged = false ∧ s.inLightPhase = true then
      { s with filenameLogged := true, inLightPhase := false }
    else s
  let maxCount := if s.inInitialPhase = true then p.initialExposureCounter
                  else p.maxImageDisplayCount
  let cnt := s.imageDisplayCount + 1
  if maxCount ≤ cnt then
    let cl := s.currentLayer + 1
    ({ s with displayImage := false, imageDisplayCount := 0, currentLayer := cl,
              inInitialPhase := if p.initialLayers ≤ cl then false else s.inInitialPhase },
     [RFEvent.presentImage, RFEvent.queryPosition])
  else
    ({ s with imageDisplayCount := cnt }, [RFEvent.presentImage])

/-- Dark-phase sub-step 1: the once-per-phase "Light phase duration" logging
bookkeeping (`if (!inLightPhase) { ...; inLightPhase = true; ... }`). -/
def darkBookkeep (s : RFState) : RFState :=
  if s.inLightPhase = false then { s with inLightPhase := true } else s

/-- Dark-phase sub-step 2: the stage-move launch
`if (!isStageThreadRunning && !nextImageLoaded) { stageThread = async(moveStage, ...); isStageThreadRunning = true; }`. -/
def darkLaunch (s : RFState) : RFState × List RFEvent :=
  if s.isStageThreadRunning = false ∧ s.nextImageLoaded = false then
    ({ s with isStageThreadRunning := true }, [RFEvent.launchMove])
  else (s, [])

/-- Dark-phase sub-step 3: the next-image preload into the unused texture, or
the all-images-shown marking when no next image exists. -/
def darkPreload (p : RFParams) (s : RFState) : RFState :=
  if s.currentImageIndex + 1 < p.numImages ∧ s.isNextImageLoading = false then
    { s with isNextImageLoading := true, nextImageLoaded := true }
  else if p.numImages ≤ s.currentImageIndex + 1 ∧ s.isNextImageLoading = false then
    { s with allImagesShown := true }
  else s

/-- Dark-phase sub-step 4: the non-blocking completion poll
`if (isStageThreadRunning && stageThread.wait_for(0ms) == ready) { stageThread.get(); isStageThreadRunning = false; }`. -/
def darkComplete (s : RFState) (i : RFInput) : RFState × List RFEvent :=
  if s.isStageThreadRunning = true ∧ i.stageReady = true then
    ({ s with isStageThreadRunning := false }, [RFEvent.moveDone])
  else (s, [])

/-- The dark-phase branch up to (but not including) the buffer-swap check:
phase-duration bookkeeping, the stage-move launch, the next-image preload /
all-images-shown marking, and the completion poll of the stage-move future,
in the source's order. -/
def darkMid (p : RFParams) (s : RFState) (i : RFInput) : RFState × List RFEvent :=
  let r2 := darkLaunch (darkBookkeep s)
  let r4 := darkComplete (darkPreload p r2.1) i
  (r4.1, r2.2 ++ r4.2)

/-- The swap applied when the gate
`darkElapsed && nextImageLoaded && !isStageThreadRunning` passes: return to
the light phase, advance the image, flip the texture index, clear the preload
flags, and present two blank settle frames. -/
def rfSwap (s : RFState) : RFState :=
  { s with displayImage := true, isNextImageLoading := false,
           currentImageIndex := s.currentImageIndex + 1,
           currentTextureIndex := !s.currentTextureIndex,
           nextImageLoaded := false, filenameLogged := false }

/-- The full dark-phase branch (`else` of `if (displayImage)`). -/
def rfDarkStep (p : RFParams) (s : RFState) (i : RFInput) : RFState × List RFEvent :=
  let m := darkMid p s i
  if i.darkElapsed = true ∧ m.1.nextImageLoaded = true ∧ m.1.isStageThreadRunning = false then
    (rfSwap m.1,
     RFEvent.presentBlank :: m.2 ++
       [RFEvent.swapBuffers, RFEvent.presentBlank, RFEvent.presentBlank])
  else
    (m.1, RFEvent.presentBlank :: m.2)

/-- How one tick ended. -/
inductive RFOutcome where
  | cont         -- fall through to the next window frame
  | abortedNow   -- the abort check returned out of RunFull
  | finishedNow  -- the all-images-shown break left the loop
deriving DecidableEq, Repr

/-- One full iteration of the `RunFull` frame loop: the abort check at the
top of the light-phase branch, the light or dark branch, then the
`if (allImagesShown && !displayImage) break` check. -/
def rfStep (p : RFParams) (s : RFState) (i : RFInput) :
    RFState × List RFEvent × RFOutcome :=
  if s.displayImage = true then
    if i.abort = true then (s, [RFEvent.logAbort], RFOutcome.abortedNow)
    else
      let r := rfLightStep p s
      if r.1.allImagesShown = true ∧ r.1.displayImage = false then
        (r.1, r.2 ++ [RFEvent.setCurrentZero], RFOutcome.finishedNow)
      else (r.1, r.2, RFOutcome.cont)
  else
    let r := rfDarkStep p s i
    if r.1.allImagesShown = true ∧ r.1.displayImage = false then
      (r.1, r.2 ++ [RFEvent.setCurrentZero], RFOutcome.finishedNow)
    else (r.1, r.2, RFOutcome.cont)

/-- How a whole run ended. -/
inductive RFExit where
  | aborted   -- `return` taken at the abort check: no shutdown code runs
  | finished  -- normal exit through the shutdown sequence
  | fuelOut
deriving DecidableEq, Repr

/-- The code after the frame loop: wait for an in-flight stage move, query and
log the final position, `Home()`, `SMC100CClose()`, `window.close()`. -/
def rfShutdown (s : RFState) : List RFEvent :=
  (if s.isStageThreadRunning = true then [RFEvent.moveDone] else []) ++
  [RFEvent.finalPositionQuery, RFEvent.homeCmd, RFEvent.closeConn, RFEvent.windowClose]

/-- Whole-run trace of `RunFull`.  On `abortedNow` the function returns
immediately — exactly as the `return` in the source — without appending the
shutdown events. -/
def runFull (p : RFParams) (inputs : Nat → RFInput) :
    Nat → RFState → Nat → List RFEvent × RFExit
  | 0, _, _ => ([], RFExit.fuelOut)
  | fuel + 1, s, t =>
    let r := rfStep p s (inputs t)
    match r.2.2 with
    | RFOutcome.abortedNow => (r.2.1, RFExit.aborted)
    | RFOutcome.finishedNow => (r.2.1 ++ rfShutdown r.1, RFExit.finished)
    | RFOutcome.cont =>
      let rest := runFull p inputs fuel r.1 (t + 1)
      (r.2.1 ++ rest.1, rest.2)

/-! ## The RunFullDynamic loop (`individualCommands.cpp` RunFullDynamic)

Same frame-tick structure, but wrapped in
`for (setting : orderedSettings) { layercounter = 0; while (layercounter <= layerCount) { tick } }`,
with the group's `exposureTime` as the light-phase threshold and
`layercounter++` executed inside the buffer-swap block.  Only
`p.numImages` of `RFParams` is read by the shared dark-phase logic. -/

/-- Dynamic light-phase branch: like `rfLightStep` but the threshold is the
active group's `exposureTime` and there is no initial-phase special case. -/
def dynLightStep (exposure : Nat) (s : RFState) : RFState × List RFEvent :=
  let s :=
    if s.filenameLogged = false ∧ s.inLightPhase = true then
      { s with filenameLogged := true, inLightPhase := false }
    else s
  let cnt := s.imageDisplayCount + 1
  if exposure ≤ cnt then
    ({ s with displayImage := false, imageDisplayCount := 0,
              currentLayer := s.currentLayer + 1 },
     [RFEvent.presentImage, RFEvent.queryPosition])
  else
    ({ s with imageDisplayCount := cnt }, [RFEvent.presentImage])

/-- Dynamic dark-phase branch: `rfDarkStep` plus `layercounter++` and the
"Printed layer" report inside the swap block. -/
def dynDarkStep (p : RFParams) (s : RFState) (lc : Nat) (i : RFInput) :
    (RFState × Nat) × List RFEvent :=
  let m := darkMid p s i
  if i.darkElapsed = true ∧ m.1.nextImageLoaded = true ∧ m.1.isStageThreadRunning = false then
    ((rfSwap m.1, lc + 1),
     RFEvent.presentBlank :: m.2 ++
       [RFEvent.swapBuffers, RFEvent.presentBlank, RFEvent.presentBlank, RFEvent.layerDone])
  else
    ((m.1, lc), RFEvent.presentBlank :: m.2)

/-- One tick of the dynamic inner `while (layercounter <= layerCount)` body. -/
def dynStep (p : RFParams) (exposure : Nat) (s : RFState) (lc : Nat) (i : RFInput) :
    (RFState × Nat) × List RFEvent × RFOutcome :=
  if s.displayImage = true then
    if i.abort = true then ((s, lc), [RFEvent.logAbort], RFOutcome.abortedNow)
    else
      let r := dynLightStep exposure s
      if r.1.allImagesShown = true ∧ r.1.displayImage = false then
        ((r.1, lc), r.2 ++ [RFEvent.setCurrentZero], RFOutcome.finishedNow)
      else ((r.1, lc), r.2, RFOutcome.cont)
  else
    let r := dynDarkStep p s lc i
    if r.1.1.allImagesShown = true ∧ r.1.1.displayImage = false then
      (r.1, r.2 ++ [RFEvent.setCurrentZero], RFOutcome.finishedNow)
    else (r.1, r.2, RFOutcome.cont)

/-- How one settings group's inner loop ended. -/
inductive GroupExit where
  | groupDone    -- `layercounter <= layerCount` became false
  | imagesDone   -- `if (allImagesShown && !displayImage) break`
  | runAborted   -- the abort `return` fired inside this group
  | fuelOut
deriving DecidableEq, Repr

/-- The inner `while (layercounter <= layerCount)` loop for one group.
Returns the state at exit, the number of completed light/dark layer cycles
(the final `layercounter`), the events, the next tick index and the exit
kind.  Note the loop condition uses `<=`, so it admits `layerCount + 1`
completed cycles. -/
def dynGroup (p : RFParams) (exposure layerCount : Nat) (inputs : Nat → RFInput) :
    Nat → RFState → Nat → Nat → RFState × Nat × List RFEvent × Nat × GroupExit
  | 0, s, lc, t => (s, lc, [], t, GroupExit.fuelOut)
  | fuel + 1, s, lc, t =>
    if layerCount < lc then (s, lc, [], t, GroupExit.groupDone)
    else
      let r := dynStep p exposure s lc (inputs t)
      match r.2.2 with
      | RFOutcome.abortedNow => (r.1.1, r.1.2, r.2.1, t + 1, GroupExit.runAborted)
      | RFOutcome.finishedNow => (r.1.1, r.1.2, r.2.1, t + 1, GroupExit.imagesDone)
      | RFOutcome.cont =>
        let rest := dynGroup p exposure layerCount inputs fuel r.1.1 r.1.2 (t + 1)
        (rest.1, rest.2.1, r.2.1 ++ rest.2.2.1, rest.2.2.2.1, rest.2.2.2.2)

/-- The `for (setting : orderedSettings)` loop: apply each group's settings
(`SetCurrent(intensity)`, the group's exposure threshold and dark duration),
reset `layercounter` to 0, and run the inner while-loop; an abort return
stops everything, while the images-done break only leaves the inner loop and
the `for` continues with the next group.  Returns per-group completed cycle
counts, the final state, the event trace, and the exit kind (`aborted` or
normal).  Each group's inner loop is given `groupFuel` ticks. -/
def dynGroups (p : RFParams) (inputs : Nat → RFInput) (groupFuel : Nat) :
    List (LayerSettings × Nat) → RFState → Nat →
    List (LayerSettings × Nat) × RFState × List RFEvent × RFExit
  | [], s, _ => ([], s, [], RFExit.finished)
  | (g, layerCount) :: groups, s, t =>
    let r := dynGroup p g.exposureTime.toNat layerCount inputs groupFuel s 0 t
    match r.2.2.2.2 with
    | GroupExit.runAborted =>
      ([(g, r.2.1)], r.1, RFEvent.applyGroup g :: r.2.2.1, RFExit.aborted)
    | GroupExit.fuelOut =>
      ([(g, r.2.1)], r.1, RFEvent.applyGroup g :: r.2.2.1, RFExit.fuelOut)
    | _ =>
      let rest := dynGroups p inputs groupFuel groups r.1 r.2.2.2.1
      ((g, r.2.1) :: rest.1, rest.2.1,
       (RFEvent.applyGroup g :: r.2.2.1) ++ rest.2.2.1, rest.2.2.2)

/-- Whole `RunFullDynamic` run: the group loop followed — except on the abort
return — by the shutdown tail (the outer `while (window.isOpen())` executes
its body once and then hits the unconditional `break`).  Returns the
per-group completed-cycle counts, the event trace and the exit kind. -/
def runFullDynamic (p : RFParams) (settings : List (LayerSettings × Nat))
    (inputs : Nat → RFInput) (groupFuel : Nat) :
    List (LayerSettings × Nat) × List RFEvent × RFExit :=
  let r := dynGroups p inputs groupFuel settings rfInit 0
  match r.2.2.2 with
  | RFExit.aborted => (r.1, r.2.2.1, RFExit.aborted)
  | RFExit.fuelOut => (r.1, r.2.2.1, RFExit.fuelOut)
  | RFExit.finished => (r.1, r.2.2.1 ++ rfShutdown r.2.1, RFExit.finished)

/-- Concrete scenario used to exercise the buffer-swap gate: a dark-phase
state with the next frame already preloaded and no stage move in flight. -/
def gateDemoParams : RFParams := ⟨5, 3, 2, 5⟩

/-- See `gateDemoParams`. -/
def gateDemoState : RFState :=
  { rfInit with displayImage := false, nextImageLoaded := true, isNextImageLoading := true }

/-- See `gateDemoParams`. -/
def gateDemoInput : RFInput := ⟨false, true, true⟩

/-! # Theorems -/

section Theorems

/-! ## C5: status decode -/

/-- Counterexample for C5 as universally stated: on a response line shorter
than 7 characters (here the plausible 5-character reply `"1TS0A"`),
`response.substr(7, 2)` throws `std::out_of_range` (modelled `none`), so the
decode fails rather than returning an Unknown outcome. -/
theorem getCurrentStatusDecode_short_line_fails :
    getCurrentStatusDecode "1TS0A" = none := rfl

/-- C5 (amended: restricted to response lines of length at least 7, the
lines on which `substr(7, 2)` does not throw): the decode always returns a
value; the token `"33"` at offset 7 yields `"Ready"`; a token with no entry
in the static status table yields `"Unknown Status Code: <token>"`, which
preserves the raw token and is distinguishable from the plain `"Unknown"`
outcome. -/
theorem getCurrentStatusDecode_spec (r : String) (hlen : 7 ≤ r.length) :
    (∃ o, getCurrentStatusDecode r = some o) ∧
    (statusToken r = "33" → getCurrentStatusDecode r = some "Ready") ∧
    ((∀ e ∈ statusLibrary, e.1 ≠ statusToken r) →
      getCurrentStatusDecode r = some ("Unknown Status Code: " ++ statusToken r) ∧
      "Unknown Status Code: " ++ statusToken r ≠ "Unknown") := by
  have hnl : ¬ r.length < 7 := not_lt.mpr hlen
  refine ⟨?_, ?_, ?_⟩
  · unfold getCurrentStatusDecode
    rw [if_neg hnl]
    cases h : statusLibrary.find? (fun e => decide (e.1 = statusToken r)) <;> simp [h]
  · intro h33
    unfold getCurrentStatusDecode
    rw [if_neg hnl]
    simp only [h33]
    rfl
  · intro hmiss
    have hfind : statusLibrary.find? (fun e => decide (e.1 = statusToken r)) = none := by
      apply List.find?_eq_none.mpr
      intro e he
      simpa using hmiss e he
    constructor
    · unfold getCurrentStatusDecode
      rw [if_neg hnl, hfind]
    · intro hEq
      have hl := congrArg String.length hEq
      rw [String.length_append] at hl
      have h21 : ("Unknown Status Code: ").length = 21 := rfl
      have h7 : ("Unknown").length = 7 := rfl
      omega

/-- Witness for `getCurrentStatusDecode_spec` at two concrete response
lines: one carrying the mapped token `"33"`, one carrying the unmapped
token `"ZZ"`. -/
theorem getCurrentStatusDecode_spec_witness :
    getCurrentStatusDecode "1TS000033" = some "Ready" ∧
    getCurrentStatusDecode "1TS0000ZZ" = some ("Unknown Status Code: " ++ statusToken "1TS0000ZZ") ∧
    "Unknown Status Code: " ++ statusToken "1TS0000ZZ" ≠ "Unknown" :=
  ⟨(getCurrentStatusDecode_spec "1TS000033" (by decide)).2.1 (by decide),
   (getCurrentStatusDecode_spec "1TS0000ZZ" (by decide)).2.2 (by decide)⟩

/-! ## C8: encoding a Set request for a parameterless command -/

/-- Counterexample for C8: the `HomeSearch` command (`CommandLibrary` entry
19, wire code `"OR"`, parameter kind `None`) requested with `Set` intent is
encoded and transmitted as the wire line `"1OR\r\n"` with a `true` (success)
return — no `EncodingError` exists anywhere in `SendCurrentCommand`. -/
theorem sendCurrentCommand_none_set_emits_line :
    commandLibrary.get? 19 = some ⟨"OR", .noParam, .noIntent⟩ ∧
    sendCurrentCommand (fun _ => "0") (fun _ => "0.0") ⟨"OR", .noParam, .noIntent⟩ 0 .set
      = (true, "1OR\r\n") := ⟨rfl, rfl⟩

/-- C8 (amended): when a command whose `parameterKind` is `None` is sent
with numeric (`Set`) intent, `SendCurrentCommand` does not fail — the
parameter text is simply empty, and the line `<addr><wireCode>\r\n` is
produced and transmitted with a success result. -/
theorem sendCurrentCommand_noParam_set_spec (fmtInt fmtFloat : ℚ → String)
    (cmd : CommandStruct) (param : ℚ) (h : cmd.sendType = CommandParameterType.noParam) :
    sendCurrentCommand fmtInt fmtFloat cmd param CommandGetSetType.set
      = (true, "1" ++ cmd.code ++ "\r\n") := by
  simp [sendCurrentCommand, h]

/-- Witness for `sendCurrentCommand_noParam_set_spec` at the library's
`HomeSearch` entry with parameter 3. -/
theorem sendCurrentCommand_noParam_set_spec_witness :
    sendCurrentCommand (fun _ => "3") (fun _ => "3.0") ⟨"OR", .noParam, .noIntent⟩ 3
      CommandGetSetType.set = (true, "1OR\r\n") :=
  sendCurrentCommand_noParam_set_spec _ _ _ 3 rfl

/-! ## C1: abort path of RunFull -/

/-- C1 fails on the code: with the spec's own scenario parameters (5 images,
`initialLayers = 2`, `initialExposureCounter = 3`, nominal count 5) and the
abort flag raised from tick 9 onward, the run does end at the next
light-phase iteration with no further stage move — the trace ends at the
`"Run Full aborted."` log — but the `return` taken there skips the whole
shutdown tail: no final-position query, no home command and no connection
close appear in the trace, contradicting the claim's second half. -/
theorem runFull_abort_skips_shutdown :
    (runFull ⟨5, 3, 2, 5⟩ (fun t => ⟨decide (9 ≤ t), true, true⟩) 60 rfInit 0).2
      = RFExit.aborted ∧
    (runFull ⟨5, 3, 2, 5⟩ (fun t => ⟨decide (9 ≤ t), true, true⟩) 60 rfInit 0).1.getLast?
      = some RFEvent.logAbort ∧
    RFEvent.finalPositionQuery
      ∉ (runFull ⟨5, 3, 2, 5⟩ (fun t => ⟨decide (9 ≤ t), true, true⟩) 60 rfInit 0).1 ∧
    RFEvent.homeCmd
      ∉ (runFull ⟨5, 3, 2, 5⟩ (fun t => ⟨decide (9 ≤ t), true, true⟩) 60 rfInit 0).1 ∧
    RFEvent.closeConn
      ∉ (runFull ⟨5, 3, 2, 5⟩ (fun t => ⟨decide (9 ≤ t), true, true⟩) 60 rfInit 0).1 := by
  decide

/-! ## C2: dynamic per-group layer count -/

/-- C2 fails on the code: for the spec's own table
`[(I=10,E=5,D=100)×3, (I=20,E=8,D=150)×2]`, with 12 images available and a
fully cooperative environment (stage always ready, dark timer always
elapsed), the inner loop `while (layercounter <= layerCount)` completes
`layerCount + 1` light/dark cycles per group: 4 layers under the first
group's settings and 3 under the second, instead of the claimed exactly
3 and 2.  The groups' settings are still applied strictly in table order
(the per-group result list is in table order). -/
theorem runFullDynamic_extra_layer_per_group :
    (runFullDynamic ⟨0, 0, 0, 12⟩ [(⟨10, 5, 100⟩, 3), (⟨20, 8, 150⟩, 2)]
        (fun _ => ⟨false, true, true⟩) 100).1
      = [(⟨10, 5, 100⟩, 4), (⟨20, 8, 150⟩, 3)] ∧
    (runFullDynamic ⟨0, 0, 0, 12⟩ [(⟨10, 5, 100⟩, 3), (⟨20, 8, 150⟩, 2)]
        (fun _ => ⟨false, true, true⟩) 100).2.2 = RFExit.finished := by
  decide

/-! ## C10: empty or unopenable settings file -/

/-- C10: a settings file that cannot be opened (modelled as the empty line
sequence, since the very first `getline` fails) or that contains only the
header line makes `readSettingsOrdered` return the empty table with no error
reported — the return type has no error channel — and a dynamic run driven
by the empty table performs no layer groups at all: its trace is exactly the
shutdown tail and it exits normally. -/
theorem readSettingsOrdered_empty_dynamic_noop (p : RFParams)
    (inputs : Nat → RFInput) (groupFuel : Nat) (header : String) (j1 j2 j3 : Int) :
    readSettingsOrdered [] j1 j2 j3 = [] ∧
    readSettingsOrdered [header] j1 j2 j3 = [] ∧
    runFullDynamic p [] inputs groupFuel
      = ([], [RFEvent.finalPositionQuery, RFEvent.homeCmd,
              RFEvent.closeConn, RFEvent.windowClose], RFExit.finished) :=
  ⟨rfl, rfl, rfl⟩

/-! ## C7: malformed settings rows -/

theorem totalCount_bump (v : List (LayerSettings × Nat)) (s : LayerSettings) :
    totalCount (bump v s) = totalCount v + 1 := by
  induction v with
  | nil => rfl
  | cons p rest ih =>
    unfold bump
    by_cases h : p.1 = s
    · simp [h, totalCount]
      omega
    · simp only [if_neg h]
      simp [totalCount] at ih ⊢
      omega

theorem totalCount_append_single (v : List (LayerSettings × Nat)) (s : LayerSettings) :
    totalCount (v ++ [(s, 1)]) = totalCount v + 1 := by
  simp [totalCount]

theorem totalCount_settingsStep (st : List (LayerSettings × Nat) × List (LayerSettings × Nat))
    (s : LayerSettings) :
    totalCount (settingsStep st s).2 = totalCount st.2 + 1 := by
  unfold settingsStep
  by_cases h : mapHasKey st.1 s = false
  · rw [if_pos h]; exact totalCount_append_single _ _
  · rw [if_neg h]; exact totalCount_bump _ _

theorem totalCount_foldl (rows : List LayerSettings) :
    ∀ st : List (LayerSettings × Nat) × List (LayerSettings × Nat),
      totalCount (rows.foldl settingsStep st).2 = totalCount st.2 + rows.length := by
  induction rows with
  | nil => intro st; simp
  | cons s rest ih =>
    intro st
    rw [List.foldl_cons, ih, totalCount_settingsStep]
    simp [List.length_cons]
    omega

/-- Counterexample for C7: a row whose first field is non-numeric
(`"abc,10,20,30"`) and a row whose second field is non-numeric
(`"5,abc,20,30"`) are not rejected and produce no error; each is absorbed
into the table as a full-fledged settings entry — built from the
indeterminate values of the uninitialized locals (here instantiated as
7, 8, 9) with a `0` for the first extraction that failed — so callers
cannot tell a malformed file from a well-formed one. -/
theorem readSettingsOrdered_malformed_row_absorbed :
    readSettingsOrdered ["layer,intensity,exposure,dark", "abc,10,20,30"] 7 8 9
      = [(⟨7, 8, 9⟩, 1)] ∧
    readSettingsOrdered ["layer,intensity,exposure,dark", "5,abc,20,30"] 7 8 9
      = [(⟨0, 8, 9⟩, 1)] := by
  constructor <;> rfl

/-- C7 (amended): `readSettingsOrdered` never surfaces an error and never
skips a row.  Every data row — malformed or not — is absorbed into the
table: the total repeat count of the returned table always equals the
number of data rows in the file, and the function's return type carries no
error channel at all. -/
theorem readSettingsOrdered_never_errors (lines : List String) (j1 j2 j3 : Int) :
    totalCount (readSettingsOrdered lines j1 j2 j3) = (lines.drop 1).length := by
  unfold readSettingsOrdered readSettingsOrderedCore
  rw [totalCount_foldl]
  simp [totalCount]

/-! ## C4: moveStage sub-move structure -/

theorem moveAndCheckReadyAux_sound :
    ∀ (qs : List QueryRes) (n m : Nat) (rest : List QueryRes),
      moveAndCheckReadyAux qs n = some (m, rest) →
      ∃ pre, qs = pre ++ QueryRes.ok "Ready" :: rest ∧
        QueryRes.ok "Ready" ∉ pre ∧
        m = n + pre.count QueryRes.exn := by
  intro qs
  induction qs with
  | nil => intro n m rest h; simp [moveAndCheckReadyAux] at h
  | cons q tail ih =>
    intro n m rest h
    match q with
    | QueryRes.ok s =>
      by_cases hs : s = "Ready"
      · subst hs
        simp [moveAndCheckReadyAux] at h
        exact ⟨[], by simp [h.1, h.2], by simp, by simp [h.1]⟩
      · rw [moveAndCheckReadyAux, if_neg hs] at h
        obtain ⟨pre, hq, hmem, hm⟩ := ih n m rest h
        refine ⟨QueryRes.ok s :: pre, by simp [hq], ?_, by simp [hm]⟩
        simp [hmem]
        intro hcon
        exact hs hcon.symm
    | QueryRes.exn =>
      rw [moveAndCheckReadyAux] at h
      obtain ⟨pre, hq, hmem, hm⟩ := ih (n + 1) m rest h
      refine ⟨QueryRes.exn :: pre, by simp [hq], by simp [hmem], ?_⟩
      simp [hm]
      omega

/-- C4: when the status oracle raises no exception (so the catch-and-retry
path of `moveAndCheckReady` never re-issues a move) and `moveStage`'s
polling completes, the relative moves issued are exactly, in order:
the single main step when the clip-mode flag is set, and the three sub-moves
pump-up `-dlpPumpingAction`, main `stepSize`, pump-down `+dlpPumpingAction`
otherwise, each issued exactly once; moreover the consumed poll outcomes
contain exactly one `"Ready"` per sub-move and end at a `"Ready"` — each
sub-move's polling wait returns only when the controller status reads
`"Ready"`, so no sub-move starts before the previous one has completed. -/
theorem moveStage_submove_spec (isClip : Bool) (stepSize pump : ℚ)
    (qs rest : List QueryRes) (tr : List (ℚ × Nat))
    (hok : QueryRes.exn ∉ qs)
    (h : moveStage isClip stepSize pump qs = some (tr, rest)) :
    tr = (if isClip = true then [(stepSize, 1)]
          else [(-pump, 1), (stepSize, 1), (pump, 1)]) ∧
    ∃ consumed, qs = consumed ++ rest ∧
      consumed.count (QueryRes.ok "Ready") = tr.length ∧
      consumed.getLast? = some (QueryRes.ok "Ready") := by
  cases hc : isClip with
  | true =>
    subst hc
    rw [moveStage] at h
    norm_num at h
    obtain ⟨a, h1, ha⟩ := Option.bind_eq_some.mp h
    obtain ⟨n1, r1⟩ := a
    simp only [Option.some.injEq, Prod.mk.injEq] at ha
    obtain ⟨htr, hrest⟩ := ha
    obtain ⟨pre1, hq1, hmem1, hn1⟩ := moveAndCheckReadyAux_sound qs 1 n1 r1 h1
    have hpre1 : QueryRes.exn ∉ pre1 := fun hx => hok (by rw [hq1]; simp [hx])
    have hcount1 : pre1.count QueryRes.exn = 0 := List.count_eq_zero.mpr hpre1
    have hn1' : n1 = 1 := by omega
    refine ⟨by simp [← htr, hn1'], pre1 ++ [QueryRes.ok "Ready"], ?_, ?_, ?_⟩
    · rw [hq1, ← hrest]; simp
    · rw [← htr]
      simp [List.count_append, List.count_eq_zero.mpr hmem1]
    · simp
  | false =>
    subst hc
    rw [moveStage] at h
    norm_num at h
    obtain ⟨a, h1, ha⟩ := Option.bind_eq_some.mp h
    obtain ⟨b, h2, hb⟩ := Option.bind_eq_some.mp ha
    obtain ⟨c, h3, hcc⟩ := Option.bind_eq_some.mp hb
    obtain ⟨n1, r1⟩ := a
    obtain ⟨n2, r2⟩ := b
    obtain ⟨n3, r3⟩ := c
    simp only [Option.some.injEq, Prod.mk.injEq] at hcc
    obtain ⟨htr, hrest⟩ := hcc
    obtain ⟨pre1, hq1, hmem1, hn1⟩ := moveAndCheckReadyAux_sound qs 1 n1 r1 h1
    obtain ⟨pre2, hq2, hmem2, hn2⟩ := moveAndCheckReadyAux_sound r1 1 n2 r2 h2
    obtain ⟨pre3, hq3, hmem3, hn3⟩ := moveAndCheckReadyAux_sound r2 1 n3 r3 h3
    have hsub1 : QueryRes.exn ∉ pre1 := fun hx => hok (by rw [hq1]; simp [hx])
    have hsub2 : QueryRes.exn ∉ pre2 := fun hx => hok (by
      rw [hq1, hq2]; simp [hx])
    have hsub3 : QueryRes.exn ∉ pre3 := fun hx => hok (by
      rw [hq1, hq2, hq3]; simp [hx])
    have hn1' : n1 = 1 := by
      have := List.count_eq_zero.mpr hsub1; omega
    have hn2' : n2 = 1 := by
      have := List.count_eq_zero.mpr hsub2; omega
    have hn3' : n3 = 1 := by
      have := List.count_eq_zero.mpr hsub3; omega
    refine ⟨by simp [← htr, hn1', hn2', hn3'],
      pre1 ++ QueryRes.ok "Ready" :: pre2 ++ QueryRes.ok "Ready" :: pre3
        ++ [QueryRes.ok "Ready"], ?_, ?_, ?_⟩
    · rw [hq1, hq2, hq3, ← hrest]; simp
    · rw [← htr]
      simp [List.count_append, List.count_cons,
        List.count_eq_zero.mpr hmem1, List.count_eq_zero.mpr hmem2,
        List.count_eq_zero.mpr hmem3]
    · have hsplit : pre1 ++ QueryRes.ok "Ready" :: pre2 ++ QueryRes.ok "Ready" :: pre3
            ++ [QueryRes.ok "Ready"]
          = (pre1 ++ QueryRes.ok "Ready" :: pre2 ++ QueryRes.ok "Ready" :: pre3)
            ++ [QueryRes.ok "Ready"] := by simp
      rw [hsplit, List.getLast?_append_cons]
      rfl

/-- Witness for `moveStage_submove_spec`: a non-clip move whose three
polling waits each see one non-ready status before `"Ready"`. -/
theorem moveStage_submove_spec_witness :
    (([(-1, 1), (2, 1), (1, 1)] : List (ℚ × Nat))
      = if (false : Bool) = true then [((2 : ℚ), 1)] else [(-1, 1), (2, 1), (1, 1)]) ∧
    ∃ consumed,
      ([QueryRes.ok "Moving", QueryRes.ok "Ready", QueryRes.ok "Moving",
        QueryRes.ok "Ready", QueryRes.ok "Moving", QueryRes.ok "Ready"] : List QueryRes)
        = consumed ++ [] ∧
      consumed.count (QueryRes.ok "Ready")
        = ([(-1, 1), (2, 1), (1, 1)] : List (ℚ × Nat)).length ∧
      consumed.getLast? = some (QueryRes.ok "Ready") :=
  moveStage_submove_spec false 2 1
    [QueryRes.ok "Moving", QueryRes.ok "Ready", QueryRes.ok "Moving",
     QueryRes.ok "Ready", QueryRes.ok "Moving", QueryRes.ok "Ready"] []
    [(-1, 1), (2, 1), (1, 1)] (by decide) rfl

/-! ## C6: invariants of the ordered settings table -/

theorem mapHasKey_iff (m : List (LayerSettings × Nat)) (s : LayerSettings) :
    mapHasKey m s = true ↔ s ∈ m.map Prod.fst := by
  simp [mapHasKey, List.find?_isSome, List.mem_map]

theorem bump_map_fst (v : List (LayerSettings × Nat)) (s : LayerSettings) :
    (bump v s).map Prod.fst
      = if s ∈ v.map Prod.fst then v.map Prod.fst else v.map Prod.fst ++ [s] := by
  induction v with
  | nil => simp [bump]
  | cons p rest ih =>
    unfold bump
    by_cases h : p.1 = s
    · simp [h]
    · rw [if_neg h]
      by_cases hmem : s ∈ rest.map Prod.fst
      · have hmem2 : s ∈ List.map Prod.fst (p :: rest) := by
          simp only [List.map_cons, List.mem_cons]
          exact Or.inr hmem
        rw [if_pos hmem2, List.map_cons, List.map_cons, ih, if_pos hmem]
      · have hmem2 : s ∉ List.map Prod.fst (p :: rest) := by
          simp only [List.map_cons, List.mem_cons]
          push_neg
          exact ⟨fun hc => h hc.symm, hmem⟩
        rw [if_neg hmem2, List.map_cons, List.map_cons, ih, if_neg hmem]
        simp

theorem keyCount_cons (x : LayerSettings × Nat) (l : List (LayerSettings × Nat))
    (t : LayerSettings) :
    keyCount (x :: l) t = (if x.1 = t then x.2 else 0) + keyCount l t := by
  by_cases h : x.1 = t
  · simp [keyCount, h]
  · simp [keyCount, h]

theorem keyCount_append (a b : List (LayerSettings × Nat)) (s : LayerSettings) :
    keyCount (a ++ b) s = keyCount a s + keyCount b s := by
  simp [keyCount, List.filter_append]

theorem keyCount_bump (v : List (LayerSettings × Nat)) (s t : LayerSettings) :
    keyCount (bump v s) t = keyCount v t + if t = s then 1 else 0 := by
  induction v with
  | nil =>
    show keyCount [(s, 1)] t = keyCount [] t + _
    rw [keyCount_cons]
    by_cases h : t = s
    · rw [if_pos h, if_pos h.symm]
      rfl
    · rw [if_neg h, if_neg (fun hc => h hc.symm)]
      rfl
  | cons p rest ih =>
    unfold bump
    by_cases h : p.1 = s
    · rw [if_pos h, keyCount_cons, keyCount_cons]
      by_cases ht : t = s
      · have hp : p.1 = t := h.trans ht.symm
        rw [if_pos ht, if_pos hp, if_pos hp]
        omega
      · have hp : ¬ p.1 = t := fun hc => ht (hc.symm.trans h)
        rw [if_neg ht, if_neg hp, if_neg hp]
        omega
    · rw [if_neg h, keyCount_cons, keyCount_cons, ih]
      omega

theorem keyCount_eq_zero (v : List (LayerSettings × Nat)) (s : LayerSettings) :
    s ∉ v.map Prod.fst → keyCount v s = 0 := by
  induction v with
  | nil => intro _; rfl
  | cons p rest ih =>
    intro h
    simp only [List.map_cons, List.mem_cons] at h
    push_neg at h
    rw [keyCount_cons, if_neg (fun hc => h.1 hc.symm), ih h.2]

theorem mem_keyCount (v : List (LayerSettings × Nat)) :
    (v.map Prod.fst).Nodup → ∀ p ∈ v, p.2 = keyCount v p.1 := by
  induction v with
  | nil => intro _ p hp; simp at hp
  | cons q rest ih =>
    intro hnd p hp
    simp only [List.map_cons, List.nodup_cons] at hnd
    rcases List.mem_cons.mp hp with hpq | hpr
    · subst hpq
      rw [keyCount_cons, if_pos rfl, keyCount_eq_zero rest p.1 hnd.1]
      omega
    · have hne : ¬ q.1 = p.1 := by
        intro hc
        exact hnd.1 (hc ▸ List.mem_map_of_mem Prod.fst hpr)
      have hstep := ih hnd.2 p hpr
      rw [keyCount_cons, if_neg hne]
      omega


theorem settings_foldl_keys (rows : List LayerSettings) :
    ∀ m v : List (LayerSettings × Nat),
      (∀ x, x ∈ m.map Prod.fst ↔ x ∈ v.map Prod.fst) →
      (rows.foldl settingsStep (m, v)).2.map Prod.fst
        = rows.foldl (fun acc s => if s ∈ acc then acc else acc ++ [s]) (v.map Prod.fst) := by
  induction rows with
  | nil => intro m v _; rfl
  | cons s rest ih =>
    intro m v hagree
    rw [List.foldl_cons, List.foldl_cons]
    by_cases h : mapHasKey m s = false
    · have hstep : settingsStep (m, v) s = (bump m s, v ++ [(s, 1)]) := by
        unfold settingsStep; rw [if_pos h]
      have hsm : s ∉ m.map Prod.fst := by
        intro hmem
        have := (mapHasKey_iff m s).mpr hmem
        rw [h] at this
        exact absurd this (by simp)
      have hsv : s ∉ v.map Prod.fst := fun hmem => hsm ((hagree s).mpr hmem)
      have happend : (v ++ [(s, 1)]).map Prod.fst = v.map Prod.fst ++ [s] := by simp
      have hagree2 : ∀ x, x ∈ (bump m s).map Prod.fst ↔ x ∈ (v ++ [(s, 1)]).map Prod.fst := by
        intro x
        rw [bump_map_fst, if_neg hsm, happend]
        simp only [List.mem_append, List.mem_singleton]
        exact or_congr (hagree x) Iff.rfl
      rw [hstep, if_neg hsv, ih _ _ hagree2, happend]
    · have h' : mapHasKey m s = true := by
        cases hmk : mapHasKey m s with
        | false => exact absurd hmk h
        | true => rfl
      have hsm : s ∈ m.map Prod.fst := (mapHasKey_iff m s).mp h'
      have hsv : s ∈ v.map Prod.fst := (hagree s).mp hsm
      have hstep : settingsStep (m, v) s = (bump (bump m s) s, bump v s) := by
        unfold settingsStep; rw [if_neg h]
      have hbv : (bump v s).map Prod.fst = v.map Prod.fst := by
        rw [bump_map_fst, if_pos hsv]
      have hbm : (bump m s).map Prod.fst = m.map Prod.fst := by
        rw [bump_map_fst, if_pos hsm]
      have hbbm : (bump (bump m s) s).map Prod.fst = m.map Prod.fst := by
        rw [bump_map_fst, hbm, if_pos hsm]
      have hagree2 : ∀ x, x ∈ (bump (bump m s) s).map Prod.fst ↔ x ∈ (bump v s).map Prod.fst := by
        intro x
        rw [hbbm, hbv]
        exact hagree x
      rw [hstep, if_pos hsv, ih _ _ hagree2, hbv]

theorem settings_foldl_counts (rows : List LayerSettings) :
    ∀ (m v : List (LayerSettings × Nat)) (t : LayerSettings),
      keyCount (rows.foldl settingsStep (m, v)).2 t = keyCount v t + rows.count t := by
  induction rows with
  | nil => intro m v t; simp
  | cons s rest ih =>
    intro m v t
    rw [List.foldl_cons]
    by_cases h : mapHasKey m s = false
    · have hstep : settingsStep (m, v) s = (bump m s, v ++ [(s, 1)]) := by
        unfold settingsStep; rw [if_pos h]
      rw [hstep, ih, keyCount_append]
      by_cases hts : t = s
      · subst hts
        simp [keyCount_cons, keyCount, List.count_cons]
        omega
      · have hst : ¬ s = t := fun hc => hts hc.symm
        simp [keyCount_cons, keyCount, List.count_cons, hst, hts]
    · have hstep : settingsStep (m, v) s = (bump (bump m s) s, bump v s) := by
        unfold settingsStep; rw [if_neg h]
      rw [hstep, ih, keyCount_bump]
      by_cases hts : t = s
      · subst hts
        simp [List.count_cons]
        omega
      · simp [List.count_cons, hts]

theorem specStep_foldl_nodup (rows : List LayerSettings) :
    ∀ acc : List LayerSettings, acc.Nodup →
      (rows.foldl (fun acc s => if s ∈ acc then acc else acc ++ [s]) acc).Nodup := by
  induction rows with
  | nil => intro acc h; exact h
  | cons s rest ih =>
    intro acc h
    rw [List.foldl_cons]
    by_cases hmem : s ∈ acc
    · rw [if_pos hmem]
      exact ih acc h
    · rw [if_neg hmem]
      refine ih _ ?_
      simp [List.nodup_append, h, hmem]

/-- C6: for every input file (well-formed or not) the table built by
`readSettingsOrdered` satisfies the claimed invariant: no two entries carry
equal `LayerSettings`; the entries appear exactly in order of first
appearance of their settings among the parsed data rows; and each entry's
repeat count equals the number of data rows carrying exactly that
(intensity, exposureTime, darkTime) triple — a repeated group increments the
existing entry rather than appending a new one. -/
theorem readSettingsOrdered_table_invariant (lines : List String) (j1 j2 j3 : Int) :
    ((readSettingsOrdered lines j1 j2 j3).map Prod.fst).Nodup ∧
    (readSettingsOrdered lines j1 j2 j3).map Prod.fst
      = specFirstAppearance ((lines.drop 1).map (parseRow j1 j2 j3)) ∧
    ∀ p ∈ readSettingsOrdered lines j1 j2 j3,
      p.2 = ((lines.drop 1).map (parseRow j1 j2 j3)).count p.1 := by
  have hkeys : (readSettingsOrdered lines j1 j2 j3).map Prod.fst
      = specFirstAppearance ((lines.drop 1).map (parseRow j1 j2 j3)) :=
    settings_foldl_keys ((lines.drop 1).map (parseRow j1 j2 j3)) [] [] (by simp)
  have hnodup : ((readSettingsOrdered lines j1 j2 j3).map Prod.fst).Nodup := by
    rw [hkeys]
    exact specStep_foldl_nodup _ [] List.nodup_nil
  refine ⟨hnodup, hkeys, ?_⟩
  intro p hp
  have h1 := mem_keyCount _ hnodup p hp
  have h2 := settings_foldl_counts ((lines.drop 1).map (parseRow j1 j2 j3)) [] [] p.1
  have h0 : keyCount ([] : List (LayerSettings × Nat)) p.1 = 0 := rfl
  rw [h1]
  rw [show readSettingsOrdered lines j1 j2 j3
        = (((lines.drop 1).map (parseRow j1 j2 j3)).foldl settingsStep ([], [])).2 from rfl]
  omega

/-! ## C9: waitForPosition termination and convergence -/

theorem waitForPosition_succ (resp : Nat → Option ℚ) (dur : Nat → Nat) (target tol : ℚ)
    (T fuel i el : Nat) :
    waitForPosition resp dur target tol T (fuel + 1) i el
      = (if posMatched (resp i) target tol then some (i + 1, el + dur i, true)
         else if T ≤ (el + dur i) / 1000 then some (i + 1, el + dur i, false)
         else waitForPosition resp dur target tol T fuel (i + 1) (el + dur i)) := rfl

theorem waitForPosition_no_fuelOut (resp : Nat → Option ℚ) (dur : Nat → Nat)
    (target tol : ℚ) (T : Nat) (h100 : ∀ i, 100 ≤ dur i) :
    ∀ fuel i el, 1 ≤ fuel → 1000 * T ≤ el + 100 * fuel →
      waitForPosition resp dur target tol T fuel i el ≠ none := by
  intro fuel
  induction fuel with
  | zero => intro i el h1 _; omega
  | succ fuel ih =>
    intro i el _ hbound
    rw [waitForPosition_succ]
    by_cases hm : posMatched (resp i) target tol = true
    · rw [if_pos hm]; simp
    · rw [if_neg hm]
      by_cases hto : T ≤ (el + dur i) / 1000
      · rw [if_pos hto]; simp
      · rw [if_neg hto]
        have hd := h100 i
        have hfuel1 : 1 ≤ fuel := by
          by_contra hf
          have hf0 : fuel = 0 := by omega
          subst hf0
          have hge : 1000 * T ≤ el + dur i := by omega
          have : T ≤ (el + dur i) / 1000 := by
            refine (Nat.le_div_iff_mul_le (by norm_num)).mpr ?_
            omega
          exact hto this
        exact ih (i + 1) (el + dur i) hfuel1 (by omega)

theorem waitForPosition_converge (resp : Nat → Option ℚ) (target tol : ℚ) (T k : Nat)
    (hmatch : posMatched (resp k) target tol = true)
    (hbefore : ∀ i, i < k → posMatched (resp i) target tol = false)
    (hkT : 100 * (k + 1) < 1000 * T) :
    ∀ fuel i, i ≤ k → k + 1 ≤ i + fuel →
      waitForPosition resp (fun _ => 100) target tol T fuel i (100 * i)
        = some (k + 1, 100 * (k + 1), true) := by
  intro fuel
  induction fuel with
  | zero => intro i hik hbound; omega
  | succ fuel ih =>
    intro i hik hbound
    rw [waitForPosition_succ]
    by_cases hii : i = k
    · subst hii
      rw [if_pos hmatch]
      have h100 : 100 * i + 100 = 100 * (i + 1) := by ring
      rw [h100]
    · have hlt : i < k := lt_of_le_of_ne hik hii
      rw [if_neg (by rw [hbefore i hlt]; simp)]
      have hto : ¬ T ≤ (100 * i + 100) / 1000 := by
        intro hcon
        have := (Nat.le_div_iff_mul_le (by norm_num)).mp hcon
        omega
      rw [if_neg hto]
      have h100 : 100 * i + 100 = 100 * (i + 1) := by ring
      rw [h100]
      exact ih (i + 1) hlt (by omega)

theorem waitForPosition_diverge (resp : Nat → Option ℚ) (target tol : ℚ) (T : Nat)
    (hmiss : ∀ i, posMatched (resp i) target tol = false) :
    ∀ fuel i, i < 10 * T → 10 * T ≤ i + fuel →
      waitForPosition resp (fun _ => 100) target tol T fuel i (100 * i)
        = some (10 * T, 1000 * T, false) := by
  intro fuel
  induction fuel with
  | zero => intro i h1 h2; omega
  | succ fuel ih =>
    intro i h1 h2
    rw [waitForPosition_succ]
    rw [if_neg (by rw [hmiss i]; simp)]
    by_cases hend : i + 1 = 10 * T
    · have hto : T ≤ (100 * i + 100) / 1000 := by
        refine (Nat.le_div_iff_mul_le (by norm_num)).mpr ?_
        omega
      rw [if_pos hto]
      have he : i + 1 = 10 * T := hend
      have hel : 100 * i + 100 = 1000 * T := by omega
      rw [he, hel]
    · have hto : ¬ T ≤ (100 * i + 100) / 1000 := by
        intro hcon
        have := (Nat.le_div_iff_mul_le (by norm_num)).mp hcon
        omega
      rw [if_neg hto]
      have h100 : 100 * i + 100 = 100 * (i + 1) := by ring
      rw [h100]
      exact ih (i + 1) (by omega) (by omega)

/-- C9: the `waitForPosition` loop terminates for every controller behavior
and matches the claimed convergence behavior.  With fuel `10 * T + 1` and
every iteration lasting at least the 100 ms the two sleeps contribute, the
loop never runs out of fuel (first conjunct, for an arbitrary position
oracle).  When the reported position first comes within the absolute
tolerance of the target at iteration `k` and `100 * (k + 1) ms` is below the
`T`-second timeout, the loop returns matched after exactly `k + 1`
iterations (second conjunct).  When the reported position never comes within
tolerance, the loop returns unmatched exactly when the truncated-to-seconds
elapsed time reaches the timeout, after `10 * T` iterations and `1000 * T`
ms (third conjunct).  In every case no exception escapes (the model is
total), and one `AbsoluteMove(target)` re-issue and one `GetPosition` query
happen per counted iteration by construction of `waitForPosition`. -/
theorem waitForPosition_spec (target tol : ℚ) (T k : Nat) (dur : Nat → Nat)
    (respA respB : Nat → Option ℚ)
    (hdur : ∀ i, 100 ≤ dur i) (hT : 1 ≤ T)
    (hAk : posMatched (respA k) target tol = true)
    (hAbefore : ∀ i, i < k → posMatched (respA i) target tol = false)
    (hkT : 100 * (k + 1) < 1000 * T)
    (hB : ∀ i, posMatched (respB i) target tol = false) :
    (∀ resp : Nat → Option ℚ,
        waitForPosition resp dur target tol T (10 * T + 1) 0 0 ≠ none) ∧
    waitForPosition respA (fun _ => 100) target tol T (10 * T + 1) 0 0
      = some (k + 1, 100 * (k + 1), true) ∧
    waitForPosition respB (fun _ => 100) target tol T (10 * T + 1) 0 0
      = some (10 * T, 1000 * T, false) := by
  refine ⟨?_, ?_, ?_⟩
  · intro resp
    exact waitForPosition_no_fuelOut resp dur target tol T hdur (10 * T + 1) 0 0
      (by omega) (by omega)
  · exact waitForPosition_converge respA target tol T k hAk hAbefore hkT
      (10 * T + 1) 0 (by omega) (by omega)
  · exact waitForPosition_diverge respB target tol T hB (10 * T + 1) 0
      (by omega) (by omega)

/-- Witness for `waitForPosition_spec`: timeout 1 s; a controller that
reports 10 (out of tolerance 1 around target 0) once and then 0 converges on
the second iteration; a controller stuck at 10 times out after 10
iterations (1000 ms). -/
theorem waitForPosition_spec_witness :
    waitForPosition (fun i => if i = 0 then some (10 : ℚ) else some 0)
        (fun _ => 100) 0 1 1 11 0 0 = some (2, 200, true) ∧
    waitForPosition (fun _ => some (10 : ℚ)) (fun _ => 100) 0 1 1 11 0 0
      = some (10, 1000, false) := by
  have h := waitForPosition_spec 0 1 1 1 (fun _ => 100)
    (fun i => if i = 0 then some (10 : ℚ) else some 0) (fun _ => some (10 : ℚ))
    (fun _ => le_refl 100) (le_refl 1) (by norm_num [posMatched])
    (by
      intro i hi
      have h0 : i = 0 := by omega
      subst h0
      norm_num [posMatched])
    (by norm_num) (fun i => by norm_num [posMatched])
  exact ⟨h.2.1, h.2.2⟩

/-! ## C3: swap and launch gating in the RunFull loop -/

theorem darkBookkeep_displayImage (s : RFState) :
    (darkBookkeep s).displayImage = s.displayImage := by
  unfold darkBookkeep
  split_ifs <;> rfl

theorem darkBookkeep_isStageThreadRunning (s : RFState) :
    (darkBookkeep s).isStageThreadRunning = s.isStageThreadRunning := by
  unfold darkBookkeep
  split_ifs <;> rfl

theorem darkLaunch_events (s : RFState) :
    (darkLaunch s).2 = [] ∨
      ((darkLaunch s).2 = [RFEvent.launchMove] ∧ s.isStageThreadRunning = false) := by
  unfold darkLaunch
  split_ifs with h
  · exact Or.inr ⟨rfl, h.1⟩
  · exact Or.inl rfl

theorem darkLaunch_displayImage (s : RFState) :
    (darkLaunch s).1.displayImage = s.displayImage := by
  unfold darkLaunch
  split_ifs <;> rfl

theorem darkPreload_displayImage (p : RFParams) (s : RFState) :
    (darkPreload p s).displayImage = s.displayImage := by
  unfold darkPreload
  split_ifs <;> rfl

theorem darkComplete_events (s : RFState) (i : RFInput) :
    (darkComplete s i).2 = [] ∨ (darkComplete s i).2 = [RFEvent.moveDone] := by
  unfold darkComplete
  split_ifs
  · exact Or.inr rfl
  · exact Or.inl rfl

theorem darkComplete_displayImage (s : RFState) (i : RFInput) :
    (darkComplete s i).1.displayImage = s.displayImage := by
  unfold darkComplete
  split_ifs <;> rfl

theorem darkMid_no_swap (p : RFParams) (s : RFState) (i : RFInput) :
    RFEvent.swapBuffers ∉ (darkMid p s i).2 := by
  unfold darkMid
  intro h
  simp only [List.mem_append] at h
  rcases h with h | h
  · rcases darkLaunch_events (darkBookkeep s) with he | ⟨he, _⟩ <;> rw [he] at h <;> simp at h
  · rcases darkComplete_events (darkPreload p (darkLaunch (darkBookkeep s)).1) i with
      he | he <;> rw [he] at h <;> simp at h

theorem darkMid_launch (p : RFParams) (s : RFState) (i : RFInput) :
    RFEvent.launchMove ∈ (darkMid p s i).2 → s.isStageThreadRunning = false := by
  unfold darkMid
  intro h
  simp only [List.mem_append] at h
  rcases h with h | h
  · rcases darkLaunch_events (darkBookkeep s) with he | ⟨_, hrun⟩
    · rw [he] at h; simp at h
    · rw [← darkBookkeep_isStageThreadRunning s]
      exact hrun
  · rcases darkComplete_events (darkPreload p (darkLaunch (darkBookkeep s)).1) i with
      he | he <;> rw [he] at h <;> simp at h

theorem darkMid_displayImage (p : RFParams) (s : RFState) (i : RFInput) :
    (darkMid p s i).1.displayImage = s.displayImage := by
  unfold darkMid
  rw [darkComplete_displayImage, darkPreload_displayImage, darkLaunch_displayImage,
    darkBookkeep_displayImage]

theorem rfDarkStep_cases (p : RFParams) (s : RFState) (i : RFInput) :
    (i.darkElapsed = true ∧ (darkMid p s i).1.nextImageLoaded = true ∧
        (darkMid p s i).1.isStageThreadRunning = false ∧
        rfDarkStep p s i
          = (rfSwap (darkMid p s i).1,
             RFEvent.presentBlank :: (darkMid p s i).2 ++
               [RFEvent.swapBuffers, RFEvent.presentBlank, RFEvent.presentBlank])) ∨
    (rfDarkStep p s i = ((darkMid p s i).1, RFEvent.presentBlank :: (darkMid p s i).2) ∧
        RFEvent.swapBuffers ∉ (rfDarkStep p s i).2) := by
  unfold rfDarkStep
  by_cases hg : i.darkElapsed = true ∧ (darkMid p s i).1.nextImageLoaded = true ∧
      (darkMid p s i).1.isStageThreadRunning = false
  · left
    rw [if_pos hg]
    exact ⟨hg.1, hg.2.1, hg.2.2, rfl⟩
  · right
    rw [if_neg hg]
    refine ⟨rfl, ?_⟩
    intro hmem
    simp at hmem
    exact darkMid_no_swap p s i hmem

theorem rfLightStep_events (p : RFParams) (s : RFState) :
    ∀ e ∈ (rfLightStep p s).2, e = RFEvent.presentImage ∨ e = RFEvent.queryPosition := by
  intro e he
  unfold rfLightStep at he
  split_ifs at he
  all_goals rw [apply_ite Prod.snd] at he
  all_goals split at he
  all_goals try split at he
  all_goals simp at he
  all_goals tauto

/-- C3: in every iteration of the `RunFull` frame loop, (a) an asynchronous
stage move is launched only when no stage move is in flight (and only during
a dark phase), so a new move is never started while the previous one is
unresolved; (b) the active/inactive frame buffers are swapped only when all
three gate conditions hold at once: the dark timer has elapsed, the next
frame is fully preloaded, and the in-flight move's completion has been
observed (no move in flight after the completion poll) — and the state
entering the new light phase still has no move in flight; (c) a new light
(exposure) phase begins only through that swap, hence only under the same
three conditions. -/
theorem rfStep_gating (p : RFParams) (s : RFState) (i : RFInput) :
    (RFEvent.launchMove ∈ (rfStep p s i).2.1 →
       s.isStageThreadRunning = false ∧ s.displayImage = false) ∧
    (RFEvent.swapBuffers ∈ (rfStep p s i).2.1 →
       i.darkElapsed = true ∧ (darkMid p s i).1.nextImageLoaded = true ∧
       (darkMid p s i).1.isStageThreadRunning = false ∧
       (rfStep p s i).1.isStageThreadRunning = false) ∧
    ((rfStep p s i).1.displayImage = true → s.displayImage = false →
       RFEvent.swapBuffers ∈ (rfStep p s i).2.1) := by
  by_cases hd : s.displayImage = true
  · -- light-phase branch: no launch, no swap, no dark-to-light transition
    unfold rfStep
    rw [if_pos hd]
    by_cases ha : i.abort = true
    · rw [if_pos ha]
      refine ⟨?_, ?_, ?_⟩
      · intro h; simp at h
      · intro h; simp at h
      · intro _ h2; rw [hd] at h2; cases h2
    · rw [if_neg ha]
      have hev := rfLightStep_events p s
      by_cases hfin : (rfLightStep p s).1.allImagesShown = true ∧
          (rfLightStep p s).1.displayImage = false
      · rw [if_pos hfin]
        refine ⟨?_, ?_, ?_⟩
        · intro h
          simp at h
          rcases hev _ h with h' | h' <;> simp at h'
        · intro h
          simp at h
          rcases hev _ h with h' | h' <;> simp at h'
        · intro _ h2; rw [hd] at h2; cases h2
      · rw [if_neg hfin]
        refine ⟨?_, ?_, ?_⟩
        · intro h
          rcases hev _ h with h' | h' <;> simp at h'
        · intro h
          rcases hev _ h with h' | h' <;> simp at h'
        · intro _ h2; rw [hd] at h2; cases h2
  · -- dark-phase branch
    have hdf : s.displayImage = false := by
      cases hdb : s.displayImage with
      | false => rfl
      | true => exact absurd hdb hd
    unfold rfStep
    rw [if_neg hd]
    rcases rfDarkStep_cases p s i with ⟨hde, hnl, hnr, heq⟩ | ⟨heq, hnsw⟩
    · -- the swap fired this tick
      by_cases hfin : (rfDarkStep p s i).1.allImagesShown = true ∧
          (rfDarkStep p s i).1.displayImage = false
      · rw [if_pos hfin]
        refine ⟨?_, ?_, ?_⟩
        · intro h
          rw [heq] at h
          simp at h
          exact ⟨darkMid_launch p s i h, hdf⟩
        · intro _
          refine ⟨hde, hnl, hnr, ?_⟩
          rw [heq]
          exact hnr
        · intro _ _
          rw [heq]
          simp
      · rw [if_neg hfin]
        refine ⟨?_, ?_, ?_⟩
        · intro h
          rw [heq] at h
          simp at h
          exact ⟨darkMid_launch p s i h, hdf⟩
        · intro _
          refine ⟨hde, hnl, hnr, ?_⟩
          rw [heq]
          exact hnr
        · intro _ _
          rw [heq]
          simp
    · -- no swap this tick
      by_cases hfin : (rfDarkStep p s i).1.allImagesShown = true ∧
          (rfDarkStep p s i).1.displayImage = false
      · rw [if_pos hfin]
        refine ⟨?_, ?_, ?_⟩
        · intro h
          rw [heq] at h
          simp at h
          exact ⟨darkMid_launch p s i h, hdf⟩
        · intro h
          rw [heq] at h
          simp at h
          exact absurd h (darkMid_no_swap p s i)
        · intro h1 _
          rw [heq] at h1
          rw [darkMid_displayImage p s i, hdf] at h1
          cases h1
      · rw [if_neg hfin]
        refine ⟨?_, ?_, ?_⟩
        · intro h
          rw [heq] at h
          simp at h
          exact ⟨darkMid_launch p s i h, hdf⟩
        · intro h
          rw [heq] at h
          simp at h
          exact absurd h (darkMid_no_swap p s i)
        · intro h1 _
          rw [heq] at h1
          rw [darkMid_displayImage p s i, hdf] at h1
          cases h1

/-- Witness for `rfStep_gating`: a dark-phase state with the next frame
preloaded, no move in flight, and the dark timer elapsed — the swap fires
and the gate conditions are confirmed at this concrete input. -/
theorem rfStep_gating_witness :
    gateDemoInput.darkElapsed = true ∧
    (darkMid gateDemoParams gateDemoState gateDemoInput).1.nextImageLoaded = true ∧
    (darkMid gateDemoParams gateDemoState gateDemoInput).1.isStageThreadRunning = false ∧
    (rfStep gateDemoParams gateDemoState gateDemoInput).1.isStageThreadRunning = false :=
  (rfStep_gating gateDemoParams gateDemoState gateDemoInput).2.1 (by decide)

end Theorems

end DynamicClip
